import Mathlib

/-!
Verification of the budget-tracker data model
(`budget_tracker/budgets/models.py` and its creation flow).

Modelling conventions:
* Monetary amounts (`DecimalField` with two decimal places) are integers in
  cents, so `Decimal('1200.00')` is `120000`.
* Calendar dates are year/month/day triples ordered lexicographically.
* The record store is a list of persisted `MonthlyInstance` rows plus a
  primary-key counter; the many-to-many relation `budget_items` is carried as
  the list of referenced `BudgetItem` ids on the instance record.
* Fallible persistence (the unique constraint on `month`) returns `Except`.
-/

/-- A calendar date (year, month, day). -/
structure Date where
  year : Nat
  month : Nat
  day : Nat
deriving DecidableEq, Repr

/-- Calendar order on dates: lexicographic on (year, month, day).
This is the order behind the `startdate__lte` / `end_date__gte` lookups. -/
def Date.le (a b : Date) : Prop :=
  a.year < b.year ∨ (a.year = b.year ∧
    (a.month < b.month ∨ (a.month = b.month ∧ a.day ≤ b.day)))

/-- Strict calendar order on dates. -/
def Date.lt (a b : Date) : Prop :=
  a.year < b.year ∨ (a.year = b.year ∧
    (a.month < b.month ∨ (a.month = b.month ∧ a.day < b.day)))

instance (a b : Date) : Decidable (Date.le a b) := by
  unfold Date.le; exact inferInstance

instance (a b : Date) : Decidable (Date.lt a b) := by
  unfold Date.lt; exact inferInstance

/-- `strftime('%B')`: full English month name. -/
def Date.monthName (m : Nat) : String :=
  match m with
  | 1 => "January"
  | 2 => "February"
  | 3 => "March"
  | 4 => "April"
  | 5 => "May"
  | 6 => "June"
  | 7 => "July"
  | 8 => "August"
  | 9 => "September"
  | 10 => "October"
  | 11 => "November"
  | 12 => "December"
  | _ => ""

/-- `strftime('%B %Y')` as used by `MonthlyInstance.__str__`. -/
def Date.monthYear (d : Date) : String :=
  Date.monthName d.month ++ " " ++ toString d.year

/-- Rendering of a two-decimal-place `Decimal` held as cents:
`120000 ↦ "1200.00"`, `0 ↦ "0.00"`. -/
def formatAmount (cents : Int) : String :=
  let sign := if cents < 0 then "-" else ""
  let n := cents.natAbs
  let r := n % 100
  let rs := if r < 10 then "0" ++ toString r else toString r
  sign ++ toString (n / 100) ++ "." ++ rs

/-- `budgets.models.BudgetItem`: a priced, optionally time-bounded, optionally
repeating expense record.  `cost` is in cents; `end_date = none` means the item
never expires. -/
structure BudgetItem where
  id : Nat
  name : String
  owner : String
  cost : Int
  repeats : Bool
  startdate : Date
  end_date : Option Date
deriving DecidableEq, Repr

/-- `BudgetItem.__str__`: `f"{self.name} - {self.owner} (${self.cost})"`. -/
def BudgetItem.strRepr (b : BudgetItem) : String :=
  b.name ++ " - " ++ b.owner ++ " ($" ++ formatAmount b.cost ++ ")"

/-- `MinValueValidator(Decimal('0.01'))` on `BudgetItem.cost`, as run by model
validation (`full_clean`): rejects any value strictly below one cent. -/
def BudgetItem.full_clean (b : BudgetItem) : Except String Unit :=
  if b.cost < 1 then
    Except.error "Ensure this value is greater than or equal to 0.01."
  else
    Except.ok ()

/-- `budgets.models.MonthlyInstance`: a per-month aggregate.  `pk = none`
means the record has never been persisted.  `budget_items` holds the ids of
the referenced `BudgetItem` rows (the many-to-many relation). -/
structure MonthlyInstance where
  pk : Option Nat
  month : Date
  budget_items : List Nat
  total_amount : Int
  notes : String
deriving DecidableEq, Repr

/-- `MonthlyInstance.__str__`:
`f"{self.month.strftime('%B %Y')} - Total: ${self.total_amount}"`. -/
def MonthlyInstance.strRepr (mi : MonthlyInstance) : String :=
  Date.monthYear mi.month ++ " - Total: $" ++ formatAmount mi.total_amount

/-- The record store: all persisted `MonthlyInstance` rows and the next
primary key to hand out.  `BudgetItem` rows are passed separately as `db`. -/
structure Store where
  instances : List MonthlyInstance
  nextPk : Nat
deriving DecidableEq, Repr

/-- An SQL `UPDATE` of the row with primary key `p`. -/
def Store.update (st : Store) (p : Nat) (mi : MonthlyInstance) : Store :=
  { st with instances := st.instances.map (fun x => if x.pk = some p then mi else x) }

/-- `django.db.models.Model.save` (the base `super().save()`): an unsaved
instance gets a fresh primary key and is inserted — subject to the
`unique_together = ['month']` constraint — while a saved instance is updated
in place. -/
def superSave (st : Store) (mi : MonthlyInstance) :
    Except String (MonthlyInstance × Store) :=
  match mi.pk with
  | none =>
      if st.instances.any (fun x => decide (x.month = mi.month)) then
        Except.error "UNIQUE constraint failed: budgets_monthlyinstance.month"
      else
        let mi1 := { mi with pk := some st.nextPk }
        Except.ok (mi1, { instances := st.instances ++ [mi1], nextPk := st.nextPk + 1 })
  | some p =>
      Except.ok (mi, st.update p mi)

/-- The queryset of `auto_populate_repeating_items`:
`BudgetItem.objects.filter(repeats=True, startdate__lte=self.month)`
`.filter(Q(end_date__isnull=True) | Q(end_date__gte=self.month))`. -/
def activeRepeatingItems (db : List BudgetItem) (m : Date) : List BudgetItem :=
  (db.filter (fun b => b.repeats && decide (Date.le b.startdate m))).filter
    (fun b =>
      match b.end_date with
      | none => true
      | some e => decide (Date.le m e))

/-- `self.budget_items.all()`: the `BudgetItem` rows referenced by the
instance's many-to-many relation. -/
def itemsOf (db : List BudgetItem) (mi : MonthlyInstance) : List BudgetItem :=
  db.filter (fun b => mi.budget_items.contains b.id)

/-- The sum in `calculate_total`:
`sum((item.cost for item in self.budget_items.all()), Decimal('0.00'))`. -/
def sumCosts (db : List BudgetItem) (mi : MonthlyInstance) : Int :=
  (itemsOf db mi).foldl (fun acc b => acc + b.cost) 0

/-- `self.budget_items.add(b)`: inserts a relation row unless already present. -/
def MonthlyInstance.addItem (mi : MonthlyInstance) (b : BudgetItem) : MonthlyInstance :=
  if mi.budget_items.contains b.id then mi
  else { mi with budget_items := mi.budget_items ++ [b.id] }

mutual

/-- `MonthlyInstance.save`: remembers whether the record is new
(`is_new = self.pk is None`), persists via the base save, and auto-populates
repeating items only for new instances. -/
def MonthlyInstance.save (db : List BudgetItem) (st : Store) (mi : MonthlyInstance) :
    Except String (MonthlyInstance × Store) :=
  match h : superSave st mi with
  | Except.error e => Except.error e
  | Except.ok (mi1, st1) =>
      if hnew : mi.pk.isNone then
        MonthlyInstance.auto_populate_repeating_items db st1 mi1
      else
        Except.ok (mi1, st1)
termination_by (if mi.pk.isNone then 3 else 0)
decreasing_by
  have h2 : mi1.pk.isNone = false := by
    unfold superSave at h
    cases hpk : mi.pk with
    | none =>
        rw [hpk] at h
        by_cases hb : st.instances.any (fun x => decide (x.month = mi.month)) = true
        · simp [hb] at h
        · simp only [Bool.not_eq_true] at hb
          simp [hb] at h
          obtain ⟨h1, _⟩ := h
          rw [← h1]
          rfl
    | some p =>
        rw [hpk] at h
        simp at h
        obtain ⟨h1, _⟩ := h
        rw [← h1, hpk]
        rfl
  cases hmi1 : mi1.pk with
  | none => rw [hmi1] at h2; simp at h2
  | some q =>
      cases hmi : mi.pk with
      | none => simp [hmi1, hmi]
      | some p => rw [hmi] at hnew; simp at hnew

/-- `MonthlyInstance.auto_populate_repeating_items`: replaces the
many-to-many relation with the active repeating items
(`self.budget_items.set(active_repeating_items)`) and recalculates the total. -/
def MonthlyInstance.auto_populate_repeating_items (db : List BudgetItem) (st : Store)
    (mi : MonthlyInstance) : Except String (MonthlyInstance × Store) :=
  let active := activeRepeatingItems db mi.month
  let mi1 := { mi with budget_items := active.map (fun b => b.id) }
  match MonthlyInstance.calculate_total db st mi1 with
  | Except.error e => Except.error e
  | Except.ok (_, mi2, st2) => Except.ok (mi2, st2)
termination_by (if mi.pk.isNone then 5 else 2)
decreasing_by
  cases hmi : mi.pk
  all_goals simp [hmi]

/-- `MonthlyInstance.calculate_total`: sums the referenced items' costs into
`total_amount`, persists via `self.save()`, and returns the total. -/
def MonthlyInstance.calculate_total (db : List BudgetItem) (st : Store)
    (mi : MonthlyInstance) : Except String (Int × MonthlyInstance × Store) :=
  let total := sumCosts db mi
  let mi1 := { mi with total_amount := total }
  match MonthlyInstance.save db st mi1 with
  | Except.error e => Except.error e
  | Except.ok (mi2, st2) => Except.ok (total, mi2, st2)
termination_by (if mi.pk.isNone then 4 else 1)
decreasing_by
  cases hmi : mi.pk
  all_goals simp [hmi]

end

/-- `MonthlyInstance.objects.create(month=m)`: builds a record with the field
defaults (`total_amount = Decimal('0.00')`, blank notes, empty relation) and
saves it. -/
def createMonthlyInstance (db : List BudgetItem) (st : Store) (m : Date) :
    Except String (MonthlyInstance × Store) :=
  MonthlyInstance.save db st
    { pk := none, month := m, budget_items := [], total_amount := 0, notes := "" }

/-- The instance produced by one auto-population pass: the relation replaced
by the active repeating items and the total recomputed over it. -/
def populatedInstance (db : List BudgetItem) (mi : MonthlyInstance) : MonthlyInstance :=
  let withItems : MonthlyInstance :=
    { mi with budget_items := (activeRepeatingItems db mi.month).map (fun b => b.id) }
  { withItems with total_amount := sumCosts db withItems }

/-- The creation flow exactly as §4.3 of the specification words it: persist
the record, run the Active-Item Matcher against its month assigning the
resulting item set, then run the Total Calculator, which persists again. -/
def creationFlowSpec (db : List BudgetItem) (st : Store) (mi : MonthlyInstance) :
    Except String (MonthlyInstance × Store) :=
  let persisted : MonthlyInstance := { mi with pk := some st.nextPk }
  let st1 : Store := ⟨st.instances ++ [persisted], st.nextPk + 1⟩
  let matched := activeRepeatingItems db persisted.month
  let withItems : MonthlyInstance :=
    { persisted with budget_items := matched.map (fun b => b.id) }
  let total := sumCosts db withItems
  let final : MonthlyInstance := { withItems with total_amount := total }
  Except.ok (final, st1.update st.nextPk final)

/-! ### Fixtures (from `budgets/tests.py`) -/

/-- Fixture: active repeating item, started 2024-01-01, no end date. -/
def rentItem : BudgetItem :=
  ⟨1, "Rent", "John", 120000, true, ⟨2024, 1, 1⟩, none⟩

/-- Fixture: repeating item starting 2024-12-01 (after the test month). -/
def futureInsuranceItem : BudgetItem :=
  ⟨2, "Future Insurance", "Jane", 15000, true, ⟨2024, 12, 1⟩, none⟩

/-- Fixture: repeating item expired 2024-03-31. -/
def oldSubscriptionItem : BudgetItem :=
  ⟨3, "Old Subscription", "Bob", 5000, true, ⟨2024, 1, 1⟩, some ⟨2024, 3, 31⟩⟩

/-- Fixture: non-repeating item. -/
def oneTimePaymentItem : BudgetItem :=
  ⟨4, "One-time Payment", "Alice", 50000, false, ⟨2024, 1, 1⟩, none⟩

/-- Fixture: repeating item active until 2024-12-31. -/
def carPaymentItem : BudgetItem :=
  ⟨5, "Car Payment", "Charlie", 30000, true, ⟨2024, 1, 1⟩, some ⟨2024, 12, 31⟩⟩

/-- The five-item fixture set of `MonthlyInstanceAutoPopulateTest.setUp`. -/
def fixtureDb : List BudgetItem :=
  [rentItem, futureInsuranceItem, oldSubscriptionItem, oneTimePaymentItem, carPaymentItem]

/-- Fixture pair of `MonthlyInstanceModelTest`: Rent $1200.00, Insurance $150.00. -/
def pairDb : List BudgetItem :=
  [⟨1, "Rent", "John", 120000, true, ⟨2024, 1, 1⟩, none⟩,
   ⟨2, "Insurance", "Jane", 15000, true, ⟨2024, 1, 1⟩, none⟩]

/-- A persisted January-2024 instance referencing both items of `pairDb`. -/
def pairInstance : MonthlyInstance := ⟨some 0, ⟨2024, 1, 1⟩, [1, 2], 0, ""⟩

/-- A store holding just `pairInstance`. -/
def pairStore : Store := ⟨[pairInstance], 1⟩

/-- An item whose `end_date` (2024-04-01) precedes its `startdate` (2024-05-01). -/
def invertedItem : BudgetItem :=
  ⟨9, "Backwards", "Bea", 100, true, ⟨2024, 5, 1⟩, some ⟨2024, 4, 1⟩⟩

/-! ### Supporting lemmas -/

theorem mem_activeRepeatingItems (db : List BudgetItem) (m : Date) (b : BudgetItem) :
    b ∈ activeRepeatingItems db m ↔
      b ∈ db ∧ b.repeats = true ∧ Date.le b.startdate m ∧
        (b.end_date = none ∨ ∃ e, b.end_date = some e ∧ Date.le m e) := by
  unfold activeRepeatingItems
  simp only [List.mem_filter, Bool.and_eq_true, decide_eq_true_eq]
  cases hbe : b.end_date with
  | none => simp [hbe]
  | some e => simp [hbe]; tauto

theorem Date.le_trans {a b c : Date} (h1 : Date.le a b) (h2 : Date.le b c) :
    Date.le a c := by
  unfold Date.le at *; omega

theorem Date.not_le_of_lt {a b : Date} (h : Date.lt a b) : ¬ Date.le b a := by
  unfold Date.lt Date.le at *; omega

theorem foldl_add_costs (l : List BudgetItem) (a : Int) :
    l.foldl (fun acc b => acc + b.cost) a = a + (l.map BudgetItem.cost).sum := by
  induction l generalizing a with
  | nil => simp
  | cons x xs ih => simp [ih, List.sum_cons]; ring

theorem sumCosts_eq_sum (db : List BudgetItem) (mi : MonthlyInstance) :
    sumCosts db mi = ((itemsOf db mi).map BudgetItem.cost).sum := by
  unfold sumCosts
  rw [foldl_add_costs]
  simp

theorem update_mem_pk (st : Store) (p : Nat) (mi : MonthlyInstance) :
    ∀ x ∈ (st.update p mi).instances, x.pk = some p → x = mi := by
  intro x hx hxp
  unfold Store.update at hx
  simp only [List.mem_map] at hx
  obtain ⟨y, _, hxy⟩ := hx
  by_cases h : y.pk = some p
  · rw [if_pos h] at hxy
    exact hxy.symm
  · rw [if_neg h] at hxy
    subst hxy
    exact absurd hxp h

theorem activeRepeatingItems_sublist (db : List BudgetItem) (m : Date) :
    (activeRepeatingItems db m).Sublist db := by
  unfold activeRepeatingItems
  exact (List.filter_sublist _).trans (List.filter_sublist _)

theorem activeRepeatingItems_ids_nodup (db : List BudgetItem) (m : Date)
    (h : (db.map (fun b => b.id)).Nodup) :
    ((activeRepeatingItems db m).map (fun b => b.id)).Nodup := by
  exact h.sublist ((activeRepeatingItems_sublist db m).map _)

theorem id_inj_of_nodup (db : List BudgetItem)
    (h : (db.map (fun b => b.id)).Nodup) {b c : BudgetItem}
    (hb : b ∈ db) (hc : c ∈ db) (hid : b.id = c.id) : b = c :=
  List.inj_on_of_nodup_map h hb hc hid

theorem addItem_pk (mi : MonthlyInstance) (b : BudgetItem) :
    (mi.addItem b).pk = mi.pk := by
  unfold MonthlyInstance.addItem
  split <;> rfl

theorem addItem_month (mi : MonthlyInstance) (b : BudgetItem) :
    (mi.addItem b).month = mi.month := by
  unfold MonthlyInstance.addItem
  split <;> rfl

theorem populatedInstance_pk (db : List BudgetItem) (mi : MonthlyInstance) :
    (populatedInstance db mi).pk = mi.pk := rfl

theorem populatedInstance_month (db : List BudgetItem) (mi : MonthlyInstance) :
    (populatedInstance db mi).month = mi.month := rfl

theorem populatedInstance_items (db : List BudgetItem) (mi : MonthlyInstance) :
    (populatedInstance db mi).budget_items =
      (activeRepeatingItems db mi.month).map (fun b => b.id) := rfl

theorem save_assigned_eq (db : List BudgetItem) (st : Store) (mi : MonthlyInstance)
    (p : Nat) (h : mi.pk = some p) :
    MonthlyInstance.save db st mi = Except.ok (mi, st.update p mi) := by
  have hss : superSave st mi = Except.ok (mi, st.update p mi) := by
    unfold superSave; rw [h]
  unfold MonthlyInstance.save
  split
  · rename_i e heq
    rw [hss] at heq
    exact absurd heq (by simp)
  · rename_i mi1 st1 heq
    rw [hss] at heq
    simp only [Except.ok.injEq, Prod.mk.injEq] at heq
    obtain ⟨h1, h2⟩ := heq
    subst h1; subst h2
    simp [h]

theorem calculate_total_assigned_eq (db : List BudgetItem) (st : Store)
    (mi : MonthlyInstance) (p : Nat) (h : mi.pk = some p) :
    MonthlyInstance.calculate_total db st mi =
      Except.ok (sumCosts db mi, { mi with total_amount := sumCosts db mi },
        st.update p { mi with total_amount := sumCosts db mi }) := by
  have hs := save_assigned_eq db st { mi with total_amount := sumCosts db mi } p h
  unfold MonthlyInstance.calculate_total
  dsimp only
  rw [hs]

theorem auto_populate_assigned_eq (db : List BudgetItem) (st : Store)
    (mi : MonthlyInstance) (p : Nat) (h : mi.pk = some p) :
    MonthlyInstance.auto_populate_repeating_items db st mi =
      Except.ok (populatedInstance db mi, st.update p (populatedInstance db mi)) := by
  have hct := calculate_total_assigned_eq db st
    { mi with budget_items := (activeRepeatingItems db mi.month).map (fun b => b.id) } p h
  unfold MonthlyInstance.auto_populate_repeating_items
  dsimp only
  rw [hct]
  rfl

theorem save_new_eq (db : List BudgetItem) (st : Store) (mi : MonthlyInstance)
    (hpk : mi.pk = none)
    (hfree : st.instances.any (fun x => decide (x.month = mi.month)) = false) :
    MonthlyInstance.save db st mi =
      MonthlyInstance.auto_populate_repeating_items db
        ⟨st.instances ++ [{ mi with pk := some st.nextPk }], st.nextPk + 1⟩
        { mi with pk := some st.nextPk } := by
  have hss : superSave st mi =
      Except.ok ({ mi with pk := some st.nextPk },
        ⟨st.instances ++ [{ mi with pk := some st.nextPk }], st.nextPk + 1⟩) := by
    unfold superSave; rw [hpk]; simp [hfree]
  unfold MonthlyInstance.save
  split
  · rename_i e heq
    rw [hss] at heq
    exact absurd heq (by simp)
  · rename_i mi1 st1 heq
    rw [hss] at heq
    simp only [Except.ok.injEq, Prod.mk.injEq] at heq
    obtain ⟨h1, h2⟩ := heq
    subst h1; subst h2
    simp [hpk]

theorem save_new_clash_eq (db : List BudgetItem) (st : Store) (mi : MonthlyInstance)
    (hpk : mi.pk = none)
    (hclash : st.instances.any (fun x => decide (x.month = mi.month)) = true) :
    MonthlyInstance.save db st mi =
      Except.error "UNIQUE constraint failed: budgets_monthlyinstance.month" := by
  have hss : superSave st mi =
      Except.error "UNIQUE constraint failed: budgets_monthlyinstance.month" := by
    unfold superSave; rw [hpk]; simp [hclash]
  unfold MonthlyInstance.save
  split
  · rename_i e heq
    rw [hss] at heq
    simp only [Except.error.injEq] at heq
    rw [heq]
  · rename_i mi1 st1 heq
    rw [hss] at heq
    exact absurd heq (by simp)

theorem save_new_full_eq (db : List BudgetItem) (st : Store) (mi : MonthlyInstance)
    (hpk : mi.pk = none)
    (hfree : st.instances.any (fun x => decide (x.month = mi.month)) = false) :
    MonthlyInstance.save db st mi =
      Except.ok (populatedInstance db { mi with pk := some st.nextPk },
        (Store.mk (st.instances ++ [{ mi with pk := some st.nextPk }]) (st.nextPk + 1)).update
          st.nextPk (populatedInstance db { mi with pk := some st.nextPk })) := by
  rw [save_new_eq db st mi hpk hfree,
    auto_populate_assigned_eq db _ _ st.nextPk rfl]

/-! ### Claims -/

/-- C1: for every target month `M`, `auto_populate_repeating_items` selects
exactly the `BudgetItem`s with `repeats = true`, `startdate ≤ M`, and
`end_date` absent or `≥ M`; on the five-item fixture set, matching month
2024-06-01 yields exactly the active item and the active-with-future-end item. -/
theorem activeItemMatcher_spec :
    (∀ (db : List BudgetItem) (m : Date) (b : BudgetItem),
      b ∈ activeRepeatingItems db m ↔
        b ∈ db ∧ b.repeats = true ∧ Date.le b.startdate m ∧
          (b.end_date = none ∨ ∃ e, b.end_date = some e ∧ Date.le m e)) ∧
    activeRepeatingItems fixtureDb ⟨2024, 6, 1⟩ = [rentItem, carPaymentItem] :=
  ⟨mem_activeRepeatingItems, by decide⟩

/-- C2: `calculate_total` returns the sum of the referenced items' cost fields
(zero when the reference set is empty), stores it in `total_amount` and
persists that value; for an instance holding items costing $1200.00 and
$150.00 it returns $1350.00 and the stored row carries $1350.00. -/
theorem calculate_total_spec :
    (∀ (db : List BudgetItem) (st : Store) (mi : MonthlyInstance) (p : Nat),
      mi.pk = some p →
      ∃ st2, MonthlyInstance.calculate_total db st mi =
          Except.ok (((itemsOf db mi).map BudgetItem.cost).sum,
            { mi with total_amount := ((itemsOf db mi).map BudgetItem.cost).sum }, st2) ∧
        (mi.budget_items = [] → ((itemsOf db mi).map BudgetItem.cost).sum = 0) ∧
        ∀ x ∈ st2.instances, x.pk = some p →
          x.total_amount = ((itemsOf db mi).map BudgetItem.cost).sum) ∧
    MonthlyInstance.calculate_total pairDb pairStore pairInstance =
      Except.ok (135000, { pairInstance with total_amount := 135000 },
        ⟨[{ pairInstance with total_amount := 135000 }], 1⟩) := by
  constructor
  · intro db st mi p hp
    refine ⟨Store.update st p { mi with total_amount := sumCosts db mi }, ?_, ?_, ?_⟩
    · rw [calculate_total_assigned_eq db st mi p hp, sumCosts_eq_sum]
    · intro hempty
      rw [← sumCosts_eq_sum]
      unfold sumCosts itemsOf
      simp [hempty]
    · intro x hx hxp
      have hxmi := update_mem_pk st p { mi with total_amount := sumCosts db mi } x hx hxp
      rw [hxmi]
      exact sumCosts_eq_sum db mi
  · rw [calculate_total_assigned_eq pairDb pairStore pairInstance 0 rfl]
    rfl

/-- Witness for C2: the general statement applied to the Rent/Insurance pair. -/
theorem calculate_total_spec_witness :
    ∃ st2, MonthlyInstance.calculate_total pairDb pairStore pairInstance =
        Except.ok (((itemsOf pairDb pairInstance).map BudgetItem.cost).sum,
          { pairInstance with
            total_amount := ((itemsOf pairDb pairInstance).map BudgetItem.cost).sum }, st2) ∧
      (pairInstance.budget_items = [] →
        ((itemsOf pairDb pairInstance).map BudgetItem.cost).sum = 0) ∧
      ∀ x ∈ st2.instances, x.pk = some 0 →
        x.total_amount = ((itemsOf pairDb pairInstance).map BudgetItem.cost).sum :=
  calculate_total_spec.1 pairDb pairStore pairInstance 0 rfl

/-- C7: model validation rejects a `BudgetItem` whose cost is at most zero and
accepts one costing exactly $0.01 (one cent). -/
theorem cost_validation_spec :
    (∀ b : BudgetItem, b.cost ≤ 0 →
      b.full_clean = Except.error "Ensure this value is greater than or equal to 0.01.") ∧
    (∀ b : BudgetItem, b.cost = 1 → b.full_clean = Except.ok ()) := by
  constructor
  · intro b hb
    unfold BudgetItem.full_clean
    rw [if_pos (by omega)]
  · intro b hb
    unfold BudgetItem.full_clean
    rw [if_neg (by omega)]

/-- Witness for C7: a zero-cost item is rejected and a one-cent item accepted. -/
theorem cost_validation_spec_witness :
    (⟨6, "Zero", "Zoe", 0, false, ⟨2024, 1, 1⟩, none⟩ : BudgetItem).full_clean =
      Except.error "Ensure this value is greater than or equal to 0.01." ∧
    (⟨7, "Penny", "Pat", 1, false, ⟨2024, 1, 1⟩, none⟩ : BudgetItem).full_clean =
      Except.ok () :=
  ⟨cost_validation_spec.1 _ (by decide), cost_validation_spec.2 _ rfl⟩

/-- C8: the string renderings — a `BudgetItem` "Monthly Rent" owned by
"John Doe" costing $1200.00 renders as "Monthly Rent - John Doe ($1200.00)";
a `MonthlyInstance` for January 2024 with total $0.00 renders as
"January 2024 - Total: $0.00". -/
theorem string_rendering_spec :
    BudgetItem.strRepr ⟨8, "Monthly Rent", "John Doe", 120000, true, ⟨2024, 1, 1⟩, none⟩ =
      "Monthly Rent - John Doe ($1200.00)" ∧
    MonthlyInstance.strRepr ⟨some 0, ⟨2024, 1, 1⟩, [], 0, ""⟩ =
      "January 2024 - Total: $0.00" := by
  constructor <;> decide

/-- C10: a `BudgetItem` whose `end_date` is strictly earlier than its
`startdate` passes validation (dates are never validated) yet is selected by
the Active-Item Matcher for no month whatsoever. -/
theorem invertedDateRange_never_matched :
    ∀ (b : BudgetItem) (e : Date), b.end_date = some e → Date.lt e b.startdate →
      (1 ≤ b.cost → b.full_clean = Except.ok ()) ∧
      ∀ (db : List BudgetItem) (m : Date), b ∉ activeRepeatingItems db m := by
  intro b e he hlt
  constructor
  · intro hc
    unfold BudgetItem.full_clean
    rw [if_neg (by omega)]
  · intro db m hmem
    rw [mem_activeRepeatingItems] at hmem
    obtain ⟨-, -, hsm, hend⟩ := hmem
    rcases hend with hnone | ⟨e2, he2, hme⟩
    · rw [he] at hnone
      exact Option.noConfusion hnone
    · rw [he] at he2
      injection he2 with he2
      subst he2
      exact Date.not_le_of_lt hlt (Date.le_trans hsm hme)

/-- Witness for C10: the inverted-range item is accepted and unmatched. -/
theorem invertedDateRange_never_matched_witness :
    invertedItem.full_clean = Except.ok () ∧
    invertedItem ∉ activeRepeatingItems [invertedItem] ⟨2024, 4, 15⟩ :=
  ⟨(invertedDateRange_never_matched invertedItem ⟨2024, 4, 1⟩ rfl (by decide)).1 (by decide),
   (invertedDateRange_never_matched invertedItem ⟨2024, 4, 1⟩ rfl (by decide)).2
     [invertedItem] ⟨2024, 4, 15⟩⟩

/-- C3: the first persist of a `MonthlyInstance` with no prior identity
follows the creation flow the specification describes — persist the record,
run the Active-Item Matcher against its month assigning the resulting item
set, then run the Total Calculator, which persists again — while re-saving an
already-persisted instance runs only the base persist and never the matcher. -/
theorem save_creation_flow :
    (∀ (db : List BudgetItem) (st : Store) (mi : MonthlyInstance),
      mi.pk = none →
      st.instances.any (fun x => decide (x.month = mi.month)) = false →
      MonthlyInstance.save db st mi = creationFlowSpec db st mi) ∧
    (∀ (db : List BudgetItem) (st : Store) (mi : MonthlyInstance) (p : Nat),
      mi.pk = some p → MonthlyInstance.save db st mi = superSave st mi) := by
  constructor
  · intro db st mi hpk hfree
    rw [save_new_full_eq db st mi hpk hfree]
    rfl
  · intro db st mi p hp
    rw [save_assigned_eq db st mi p hp]
    unfold superSave
    rw [hp]

/-- Witness for C3: a fresh June-2024 instance saved into an empty store
follows the creation flow; a persisted instance re-saves without the matcher. -/
theorem save_creation_flow_witness :
    MonthlyInstance.save fixtureDb ⟨[], 0⟩ ⟨none, ⟨2024, 6, 1⟩, [], 0, ""⟩ =
      creationFlowSpec fixtureDb ⟨[], 0⟩ ⟨none, ⟨2024, 6, 1⟩, [], 0, ""⟩ ∧
    MonthlyInstance.save fixtureDb ⟨[], 1⟩ ⟨some 0, ⟨2024, 6, 1⟩, [1, 5], 150000, ""⟩ =
      superSave ⟨[], 1⟩ ⟨some 0, ⟨2024, 6, 1⟩, [1, 5], 150000, ""⟩ :=
  ⟨save_creation_flow.1 fixtureDb ⟨[], 0⟩ ⟨none, ⟨2024, 6, 1⟩, [], 0, ""⟩ rfl (by decide),
   save_creation_flow.2 fixtureDb ⟨[], 1⟩ ⟨some 0, ⟨2024, 6, 1⟩, [1, 5], 150000, ""⟩ 0 rfl⟩

/-- C9: the creation flow terminates after exactly one auto-population: the
initial persist assigns the identity, one `auto_populate_repeating_items`
runs against that instance, and any save of an identity-bearing instance —
in particular the inner save issued by `calculate_total` — only persists the
row and never re-triggers auto-population. -/
theorem creation_single_population :
    ∀ (db : List BudgetItem) (st : Store) (mi : MonthlyInstance),
      mi.pk = none →
      st.instances.any (fun x => decide (x.month = mi.month)) = false →
      (MonthlyInstance.save db st mi =
          MonthlyInstance.auto_populate_repeating_items db
            ⟨st.instances ++ [{ mi with pk := some st.nextPk }], st.nextPk + 1⟩
            { mi with pk := some st.nextPk } ∧
        ({ mi with pk := some st.nextPk } : MonthlyInstance).pk.isNone = false ∧
        ∀ (st2 : Store) (mi2 : MonthlyInstance) (q : Nat), mi2.pk = some q →
          MonthlyInstance.save db st2 mi2 = Except.ok (mi2, st2.update q mi2)) := by
  intro db st mi hpk hfree
  exact ⟨save_new_eq db st mi hpk hfree, rfl,
    fun st2 mi2 q hq => save_assigned_eq db st2 mi2 q hq⟩

/-- Witness for C9: instantiated on the fixture set, a fresh June-2024
instance, and the concrete inner save on the populated instance. -/
theorem creation_single_population_witness :
    MonthlyInstance.save fixtureDb ⟨[], 0⟩ ⟨none, ⟨2024, 6, 1⟩, [], 0, ""⟩ =
      MonthlyInstance.auto_populate_repeating_items fixtureDb
        ⟨[⟨some 0, ⟨2024, 6, 1⟩, [], 0, ""⟩], 1⟩ ⟨some 0, ⟨2024, 6, 1⟩, [], 0, ""⟩ ∧
    (⟨some 0, ⟨2024, 6, 1⟩, [], 0, ""⟩ : MonthlyInstance).pk.isNone = false ∧
    MonthlyInstance.save fixtureDb ⟨[⟨some 0, ⟨2024, 6, 1⟩, [], 0, ""⟩], 1⟩
        ⟨some 0, ⟨2024, 6, 1⟩, [1, 5], 150000, ""⟩ =
      Except.ok (⟨some 0, ⟨2024, 6, 1⟩, [1, 5], 150000, ""⟩,
        Store.update ⟨[⟨some 0, ⟨2024, 6, 1⟩, [], 0, ""⟩], 1⟩ 0
          ⟨some 0, ⟨2024, 6, 1⟩, [1, 5], 150000, ""⟩) :=
  ⟨(creation_single_population fixtureDb ⟨[], 0⟩ ⟨none, ⟨2024, 6, 1⟩, [], 0, ""⟩
      rfl (by decide)).1,
   (creation_single_population fixtureDb ⟨[], 0⟩ ⟨none, ⟨2024, 6, 1⟩, [], 0, ""⟩
      rfl (by decide)).2.1,
   (creation_single_population fixtureDb ⟨[], 0⟩ ⟨none, ⟨2024, 6, 1⟩, [], 0, ""⟩
      rfl (by decide)).2.2 ⟨[⟨some 0, ⟨2024, 6, 1⟩, [], 0, ""⟩], 1⟩
      ⟨some 0, ⟨2024, 6, 1⟩, [1, 5], 150000, ""⟩ 0 rfl⟩

/-- C4: re-invoking the matcher with the same month on a persisted instance is
idempotent — the second invocation fully replaces the item references with the
same match result, so the item set after two invocations equals the set after
one, and it carries no duplicates. -/
theorem auto_populate_idempotent :
    ∀ (db : List BudgetItem) (st : Store) (mi : MonthlyInstance) (p : Nat),
      mi.pk = some p → (db.map (fun b => b.id)).Nodup →
      ∀ (mi1 : MonthlyInstance) (st1 : Store),
        MonthlyInstance.auto_populate_repeating_items db st mi = Except.ok (mi1, st1) →
        ∃ (mi2 : MonthlyInstance) (st2 : Store),
          MonthlyInstance.auto_populate_repeating_items db st1 mi1 = Except.ok (mi2, st2) ∧
          mi2.budget_items = mi1.budget_items ∧
          mi1.budget_items.Nodup := by
  intro db st mi p hp hnd mi1 st1 hrun
  rw [auto_populate_assigned_eq db st mi p hp] at hrun
  simp only [Except.ok.injEq, Prod.mk.injEq] at hrun
  obtain ⟨h1, h2⟩ := hrun
  subst h1; subst h2
  refine ⟨populatedInstance db (populatedInstance db mi), _,
    auto_populate_assigned_eq db _ (populatedInstance db mi) p
      (by rw [populatedInstance_pk]; exact hp), ?_, ?_⟩
  · rw [populatedInstance_items, populatedInstance_items, populatedInstance_month]
  · rw [populatedInstance_items]
    exact activeRepeatingItems_ids_nodup db mi.month hnd

/-- Witness for C4: second matcher run on the freshly populated June-2024
fixture instance leaves the same duplicate-free two-item set. -/
theorem auto_populate_idempotent_witness :
    ∃ (mi2 : MonthlyInstance) (st2 : Store),
      MonthlyInstance.auto_populate_repeating_items fixtureDb
          ⟨[⟨some 0, ⟨2024, 6, 1⟩, [1, 5], 150000, ""⟩], 1⟩
          ⟨some 0, ⟨2024, 6, 1⟩, [1, 5], 150000, ""⟩ = Except.ok (mi2, st2) ∧
      mi2.budget_items =
        (⟨some 0, ⟨2024, 6, 1⟩, [1, 5], 150000, ""⟩ : MonthlyInstance).budget_items ∧
      (⟨some 0, ⟨2024, 6, 1⟩, [1, 5], 150000, ""⟩ : MonthlyInstance).budget_items.Nodup :=
  auto_populate_idempotent fixtureDb ⟨[⟨some 0, ⟨2024, 6, 1⟩, [], 0, ""⟩], 1⟩
    ⟨some 0, ⟨2024, 6, 1⟩, [], 0, ""⟩ 0 rfl (by decide)
    ⟨some 0, ⟨2024, 6, 1⟩, [1, 5], 150000, ""⟩
    ⟨[⟨some 0, ⟨2024, 6, 1⟩, [1, 5], 150000, ""⟩], 1⟩
    (by rw [auto_populate_assigned_eq fixtureDb _ _ 0 rfl]; rfl)

/-- C5: if a non-repeating item was manually added to a persisted instance,
explicitly invoking the matcher again replaces the item set with the match
result alone, dropping the manual addition. -/
theorem auto_populate_drops_manual :
    ∀ (db : List BudgetItem) (st : Store) (mi : MonthlyInstance) (p : Nat) (b : BudgetItem),
      mi.pk = some p → (db.map (fun x => x.id)).Nodup → b ∈ db → b.repeats = false →
      ∃ (mi2 : MonthlyInstance) (st2 : Store),
        MonthlyInstance.auto_populate_repeating_items db st (mi.addItem b) =
          Except.ok (mi2, st2) ∧
        mi2.budget_items = (activeRepeatingItems db mi.month).map (fun x => x.id) ∧
        b.id ∉ mi2.budget_items := by
  intro db st mi p b hp hnd hbdb hbr
  refine ⟨populatedInstance db (mi.addItem b), _,
    auto_populate_assigned_eq db st (mi.addItem b) p
      (by rw [addItem_pk]; exact hp), ?_, ?_⟩
  · rw [populatedInstance_items, addItem_month]
  · rw [populatedInstance_items, addItem_month]
    intro hmem
    simp only [List.mem_map] at hmem
    obtain ⟨c, hc, hcid⟩ := hmem
    have hcdb := (mem_activeRepeatingItems db mi.month c).mp hc
    have hbc := id_inj_of_nodup db hnd hbdb hcdb.1 hcid.symm
    rw [hbc, hcdb.2.1] at hbr
    exact Bool.noConfusion hbr

/-- Witness for C5: manually adding the one-time payment to the populated
June-2024 instance and re-running the matcher drops it again. -/
theorem auto_populate_drops_manual_witness :
    ∃ (mi2 : MonthlyInstance) (st2 : Store),
      MonthlyInstance.auto_populate_repeating_items fixtureDb
          ⟨[⟨some 0, ⟨2024, 6, 1⟩, [1, 5], 150000, ""⟩], 1⟩
          ((⟨some 0, ⟨2024, 6, 1⟩, [1, 5], 150000, ""⟩ : MonthlyInstance).addItem
            oneTimePaymentItem) =
        Except.ok (mi2, st2) ∧
      mi2.budget_items =
        (activeRepeatingItems fixtureDb
          (⟨some 0, ⟨2024, 6, 1⟩, [1, 5], 150000, ""⟩ : MonthlyInstance).month).map
          (fun x => x.id) ∧
      oneTimePaymentItem.id ∉ mi2.budget_items :=
  auto_populate_drops_manual fixtureDb ⟨[⟨some 0, ⟨2024, 6, 1⟩, [1, 5], 150000, ""⟩], 1⟩
    ⟨some 0, ⟨2024, 6, 1⟩, [1, 5], 150000, ""⟩ 0 oneTimePaymentItem
    rfl (by decide) (by decide) rfl

/-- C6: creating a `MonthlyInstance` for a month that already has one fails
with the store's uniqueness-violation error, surfaced directly with no retry;
concretely, creating twice for 2024-01-01 errors on the second creation. -/
theorem duplicate_month_rejected :
    (∀ (db : List BudgetItem) (st : Store) (m : Date),
      (∃ x ∈ st.instances, x.month = m) →
      createMonthlyInstance db st m =
        Except.error "UNIQUE constraint failed: budgets_monthlyinstance.month") ∧
    (createMonthlyInstance [] ⟨[], 0⟩ ⟨2024, 1, 1⟩ =
        Except.ok (⟨some 0, ⟨2024, 1, 1⟩, [], 0, ""⟩,
          ⟨[⟨some 0, ⟨2024, 1, 1⟩, [], 0, ""⟩], 1⟩) ∧
      createMonthlyInstance [] ⟨[⟨some 0, ⟨2024, 1, 1⟩, [], 0, ""⟩], 1⟩ ⟨2024, 1, 1⟩ =
        Except.error "UNIQUE constraint failed: budgets_monthlyinstance.month") := by
  refine ⟨?_, ?_, ?_⟩
  · intro db st m hex
    unfold createMonthlyInstance
    apply save_new_clash_eq db st _ rfl
    simp only [List.any_eq_true]
    obtain ⟨x, hx, hxm⟩ := hex
    exact ⟨x, hx, by simp [hxm]⟩
  · unfold createMonthlyInstance
    rw [save_new_full_eq _ _ _ rfl (by decide)]
    rfl
  · unfold createMonthlyInstance
    rw [save_new_clash_eq _ _ _ rfl (by decide)]

/-- Witness for C6: the general rejection applied to the occupied store. -/
theorem duplicate_month_rejected_witness :
    createMonthlyInstance fixtureDb ⟨[⟨some 0, ⟨2024, 1, 1⟩, [], 0, ""⟩], 1⟩ ⟨2024, 1, 1⟩ =
      Except.error "UNIQUE constraint failed: budgets_monthlyinstance.month" :=
  duplicate_month_rejected.1 fixtureDb ⟨[⟨some 0, ⟨2024, 1, 1⟩, [], 0, ""⟩], 1⟩ ⟨2024, 1, 1⟩
    ⟨⟨some 0, ⟨2024, 1, 1⟩, [], 0, ""⟩, by simp, rfl⟩
